import Mathlib

/-!
# Verification of the RAG document-QA pipeline

Shallow embedding of the core logic of a retrieval-augmented QA system over a
single PDF report:

* `DocumentProcessor` (document_processor.py): table-to-markdown rendering,
  per-page chunk assembly, and the ingestion run with its filesystem effects.
* `VectorStoreManager.create_vector_store` (vector_store.py): record-to-document
  conversion, chunk-id assignment, and the load-from-file fallback.
* `QAEngine` (llm_qa.py): context formatting, the answer/citation contract, and
  the fallback paths.

External collaborators (the PDF parser, embedding model, FAISS, the chat model)
are modelled as inputs: a page is given by its already-extracted text, tables
and image count; the language model is a function argument that may fail.

String operations from Python (`str.replace`, `str.strip`, `str.join`) are
embedded as character-list functions so that the kernel can evaluate them on
concrete inputs.  For the call sites in this program (non-empty patterns,
ASCII whitespace) they agree with the Python semantics: `replace` rewrites
non-overlapping occurrences left to right and resumes after the replacement,
`strip` drops whitespace from both ends, `join` interposes the separator.
-/

namespace RagPipeline

deriving instance DecidableEq for Except

/-- Helper for `pyReplace`: rewrite occurrences of `pat` by `repl`, scanning
left to right, fuelled by the length of the scanned list (each step consumes
at least one character, so `s.length` fuel suffices). -/
def replaceCharsAux (pat repl : List Char) : Nat → List Char → List Char
  | 0, s => s
  | _ + 1, [] => []
  | fuel + 1, c :: cs =>
    if pat ≠ [] ∧ pat.isPrefixOf (c :: cs) then
      repl ++ replaceCharsAux pat repl fuel (cs.drop (pat.length - 1))
    else
      c :: replaceCharsAux pat repl fuel cs

/-- Python `s.replace(pat, repl)` for a non-empty pattern. -/
def pyReplace (s pat repl : String) : String :=
  String.mk (replaceCharsAux pat.data repl.data s.data.length s.data)

/-- Python `s.strip()`: remove leading and trailing whitespace. -/
def pyStrip (s : String) : String :=
  String.mk (((s.data.dropWhile Char.isWhitespace).reverse.dropWhile Char.isWhitespace).reverse)

/-- Python `sep.join(xs)`. -/
def pyJoin (sep : String) : List String → String
  | [] => ""
  | [x] => x
  | x :: y :: xs => x ++ sep ++ pyJoin sep (y :: xs)

/-- Split a string at newline characters (observation helper used to state
the line structure of rendered markdown blocks). -/
def splitLines (s : String) : List String :=
  (List.splitOn '\n' s.data).map String.mk

/-! ## Document processor (document_processor.py) -/

/-- A table cell as produced by `pdfplumber.extract_tables`: either absent
(Python `None`) or a string. -/
abbrev Cell := Option String

/-- Cell cleanup inside the method rendering tables to markdown:
Python `str(cell).replace('\n', ' ').strip() if cell else ""`.
A cell is falsy exactly when it is `None` or the empty string. -/
def cleanCell (c : Cell) : String :=
  match c with
  | none => ""
  | some s => if s = "" then "" else pyStrip (pyReplace s "\n" " ")

/-- One markdown row: Python `"| " + " | ".join(cells) + " |"`. -/
def renderRow (cells : List String) : String :=
  "| " ++ pyJoin " | " cells ++ " |"

/-- The markdown separator row:
Python `"| " + " | ".join(["---"] * n) + " |"`. -/
def separatorRow (n : Nat) : String :=
  "| " ++ pyJoin " | " (List.replicate n "---") ++ " |"

/-- Model of the method rendering one table to markdown
(`DocumentProcessor._table_to_markdown`): tables with fewer than 2 rows
render to `""`; otherwise the first row becomes the header, followed by a
separator row and the remaining rows, framed by newlines
(Python `f"\n{header}\n{separator}\n" + "\n".join(body_rows) + "\n"`). -/
def tableToMarkdown (table : List (List Cell)) : String :=
  match table with
  | hdr :: body0 :: bodyRest =>
      let cleanedHdr := hdr.map cleanCell
      let cleanedBody := (body0 :: bodyRest).map (fun row => row.map cleanCell)
      let header := renderRow cleanedHdr
      let separator := separatorRow cleanedHdr.length
      let bodyRows := cleanedBody.map renderRow
      "\n" ++ header ++ "\n" ++ separator ++ "\n" ++
        pyJoin "\n" bodyRows ++ "\n"
  | _ => ""

/-- What `pdfplumber` hands the processor for one page: the extracted text
(`page.extract_text() or ""`), the raw extracted tables, and the number of
images on the page (`len(page.images)`). -/
structure PageData where
  text : String
  tables : List (List (List Cell))
  imageCount : Nat
  deriving DecidableEq, Repr

/-- Metadata of one emitted chunk (document_processor.py `process_pdf`,
step 5). -/
structure ChunkMetadata where
  source : String
  page : Nat
  has_tables : Bool
  has_images : Bool
  deriving DecidableEq, Repr

/-- One emitted content record: a page content string with its metadata. -/
structure Chunk where
  page_content : String
  metadata : ChunkMetadata
  deriving DecidableEq, Repr

/-- The image placeholder tokens for one page:
`f"[IMAGE_REF: page_{page_num}_img_{img_idx+1}.png]"` for each image. -/
def imageReferences (pageNum count : Nat) : List String :=
  (List.range count).map (fun idx =>
    "[IMAGE_REF: page_" ++ toString pageNum ++ "_img_" ++ toString (idx + 1) ++ ".png]")

/-- The `table_texts` list of `process_pdf` step 2: each raw table rendered to
markdown, keeping only the truthy (non-empty) renderings. -/
def tableTexts (tables : List (List (List Cell))) : List String :=
  (tables.map tableToMarkdown).filter (fun s => s ≠ "")

/-- Step 4 of `process_pdf`: assemble `full_content` for one page — a tables
section if any table survived, a text section if the text is non-empty, a
visuals section if the page has images. -/
def pageFullContent (pageNum : Nat) (p : PageData) : String :=
  let tTexts := tableTexts p.tables
  let imageRefs := imageReferences pageNum p.imageCount
  let c1 :=
    if tTexts ≠ [] then
      "### TABLES ON PAGE " ++ toString pageNum ++ "\n" ++ pyJoin "\n" tTexts ++ "\n\n"
    else ""
  let c2 :=
    if p.text ≠ "" then c1 ++ "### TEXT CONTENT\n" ++ p.text ++ "\n" else c1
  if imageRefs ≠ [] then c2 ++ "\n### VISUALS\n" ++ pyJoin "\n" imageRefs else c2

/-- Step 5 of `process_pdf` for one page: emit a chunk only if `full_content`
is non-whitespace; `has_tables` is `len(tables) > 0` over the *raw* extracted
tables, `has_images` is `len(image_references) > 0`. -/
def processPage (source : String) (pageNum : Nat) (p : PageData) : Option Chunk :=
  let full := pageFullContent pageNum p
  if pyStrip full ≠ "" then
    some { page_content := full,
           metadata :=
             { source := source,
               page := pageNum,
               has_tables := decide (p.tables.length > 0),
               has_images := decide ((imageReferences pageNum p.imageCount).length > 0) } }
  else none

/-- Model of `DocumentProcessor.process_pdf` over an already-opened PDF: pages are
processed in order with 1-based page numbers; pages with whitespace-only
content contribute nothing. -/
def processPdf (source : String) (pages : List PageData) : List Chunk :=
  pages.enum.filterMap (fun ip => processPage source (ip.1 + 1) ip.2)

/-- The parts of the filesystem the ingestion run touches: the source PDF
(absent or its parsed pages plus name), the chunks JSON file (absent or its
records), and the extracted-images directory (absent or its entries). -/
structure FsState where
  pdfName : String
  pdfPages : Option (List PageData)
  chunksFile : Option (List Chunk)
  imagesDir : Option (List String)
  deriving DecidableEq, Repr

/-- Model of `DocumentProcessor.__init__`: if the images directory exists it is
deleted (`shutil.rmtree`), then recreated empty (`mkdir`) — unconditionally,
before any check on the source PDF. -/
def processorInit (s : FsState) : FsState :=
  { s with imagesDir := some [] }

/-- Model of `process_pdf` as seen from the filesystem: raises
`FileNotFoundError` when the PDF is absent, otherwise returns the processed
chunks. -/
def processPdfRun (s : FsState) : Except String (List Chunk) :=
  match s.pdfPages with
  | none => Except.error "FileNotFoundError: PDF not found"
  | some pages => Except.ok (processPdf s.pdfName pages)

/-- One ingestion run (`run_pipeline.run_ingestion` body): construct
`DocumentProcessor()` (which resets the images directory), run `process_pdf`
(which may raise), and on success write the chunks file (`save_chunks`).
Returns the final filesystem state and the outcome. -/
def ingestRun (s : FsState) : FsState × Except String (List Chunk) :=
  let s1 := processorInit s
  match processPdfRun s1 with
  | Except.error e => (s1, Except.error e)
  | Except.ok chunks => ({ s1 with chunksFile := some chunks }, Except.ok chunks)

/-! ## Vector store (vector_store.py) -/

/-- A LangChain `Document` as built in `create_vector_store` step 2: the
record's content and metadata, plus the `chunk_id` added to the metadata. -/
structure IndexedDoc where
  page_content : String
  meta : ChunkMetadata
  chunk_id : Nat
  deriving DecidableEq, Repr

/-- Step 2 of `create_vector_store`: one `Document` per record, in input order,
with `chunk_id` set to the record's 0-based position. -/
def mkDocuments (chunksData : List Chunk) : List IndexedDoc :=
  chunksData.enum.map (fun ic =>
    { page_content := ic.2.page_content, meta := ic.2.metadata, chunk_id := ic.1 })

/-- Outcome of `create_vector_store`: either an index was built from the
listed documents and saved to disk, or the function printed
"No documents to index." and returned without building or saving anything. -/
inductive BuildOutcome where
  | built (docs : List IndexedDoc)
  | noop
  deriving DecidableEq, Repr

/-- Model of `VectorStoreManager.create_vector_store`: `chunks_data` is the optional
argument (Python default `None`); `chunksFile` is the state of the persisted
chunks JSON file.  Python's `if not chunks_data:` treats both `None` and an
empty list as falsy, so either triggers the load-from-file branch, which
raises `FileNotFoundError` when the file is absent. -/
def create_vector_store (chunksData : Option (List Chunk))
    (chunksFile : Option (List Chunk)) : Except String BuildOutcome :=
  let falsy := match chunksData with
    | none => true
    | some l => l.isEmpty
  let loaded : Except String (List Chunk) :=
    if falsy then
      match chunksFile with
      | none => Except.error "FileNotFoundError: No chunks found"
      | some l => Except.ok l
    else Except.ok (chunksData.getD [])
  match loaded with
  | Except.error e => Except.error e
  | Except.ok data =>
      let documents := mkDocuments data
      if documents.isEmpty then Except.ok BuildOutcome.noop
      else Except.ok (BuildOutcome.built documents)

/-! ## QA engine (llm_qa.py) -/

/-- Metadata of a retrieved LangChain document as read by the QA engine.
Both fields are read with `dict.get` and a default, so they are optional
here; a `none` page stands for a document whose metadata lacks the key
(the code then falls back to `"?"` or `"Unknown"`). -/
structure RDocMeta where
  source : Option String
  page : Option Nat
  deriving DecidableEq, Repr

/-- A retrieved document handed to `QAEngine.answer_question`. -/
structure RDoc where
  page_content : String
  metadata : RDocMeta
  deriving DecidableEq, Repr

/-- A citation as built in `answer_question` step 3.  `page` is `none` when
the document metadata had no page key (Python default `"Unknown"`). -/
structure Citation where
  rank : Nat
  source : String
  page : Option Nat
  snippet : String
  deriving DecidableEq, Repr

/-- The dictionary `answer_question` returns.  `context_used` is optional
because the two fallback return paths build a dictionary without that key. -/
structure QAOutput where
  answer : String
  citations : List Citation
  context_used : Option Nat
  deriving DecidableEq, Repr

/-- The per-document content cleanup inside `QAEngine._format_docs`:
`doc.page_content.replace("### TEXT CONTENT", "").replace("### TABLES", "Table Data:")`. -/
def cleanDocContent (s : String) : String :=
  pyReplace (pyReplace s "### TEXT CONTENT" "") "### TABLES" "Table Data:"

/-- The page label used in a context block: the page number if present,
else the `"?"` default of `doc.metadata.get("page", "?")`. -/
def pageLabel (m : RDocMeta) : String :=
  match m.page with
  | some p => toString p
  | none => "?"

/-- Model of `QAEngine._format_docs`: accumulate, per document,
`f"--- INFO FROM PAGE {page} ({source}) ---\n{content}\n\n"` with the cleaned
content and the `"Report"` / `"?"` metadata defaults. -/
def formatDocs (docs : List RDoc) : String :=
  docs.foldl
    (fun acc doc =>
      acc ++ "--- INFO FROM PAGE " ++ pageLabel doc.metadata ++ " ("
        ++ doc.metadata.source.getD "Report" ++ ") ---\n"
        ++ cleanDocContent doc.page_content ++ "\n\n")
    ""

/-- The fixed fallback answer for an empty retrieval result. -/
def noContextAnswer : String :=
  "I looked through the report, but I couldn\x27t find the answer to that specific question."

/-- The fixed fallback answer when the model invocation raises. -/
def llmErrorAnswer : String :=
  "Oops! I had a little trouble thinking about that. Could you ask me again?"

/-- Model of `QAEngine.answer_question`, with the language-model chain abstracted as
`llm : context → question → Except err answer` (`self.chain.invoke`, which
may raise).  The second component of the result counts how many times the
chain was invoked (0 or 1), mirroring a call-count stub.  The returned
`QAOutput` has `context_used := none` exactly on the two return paths whose
Python dictionary literal omits the `"context_used"` key. -/
def answer_question_core (llm : String → String → Except String String)
    (query : String) (retrievedDocs : List RDoc) : QAOutput × Nat :=
  if retrievedDocs.isEmpty then
    ({ answer := noContextAnswer, citations := [], context_used := none }, 0)
  else
    let contextText := formatDocs retrievedDocs
    match llm contextText query with
    | Except.error _ =>
        ({ answer := llmErrorAnswer, citations := [], context_used := none }, 1)
    | Except.ok responseText =>
        ({ answer := responseText,
           citations := retrievedDocs.enum.map (fun idoc =>
             { rank := idoc.1 + 1,
               source := idoc.2.metadata.source.getD "Unknown",
               page := idoc.2.metadata.page,
               snippet := idoc.2.page_content }),
           context_used := some retrievedDocs.length }, 1)

/-- The returned dictionary of `QAEngine.answer_question`. -/
def answer_question (llm : String → String → Except String String)
    (query : String) (retrievedDocs : List RDoc) : QAOutput :=
  (answer_question_core llm query retrievedDocs).1

/-! ## Spec-side definitions

Used only to state refinement-style properties; they follow the words of the
specification, not the code. -/

/-- Spec-side shape of one rendered context block: the page/source header
line, then the document content after the generator cleanup, then a blank
line.  Stated from the specification of the context layout to compare with
`formatDocs`. -/
def contextBlock (doc : RDoc) : String :=
  "--- INFO FROM PAGE " ++ pageLabel doc.metadata ++ " ("
    ++ doc.metadata.source.getD "Report" ++ ") ---
"
    ++ cleanDocContent doc.page_content ++ "

"

/-- Spec-side concatenation of the context blocks in retrieval-rank order. -/
def contextBlocks : List RDoc → String
  | [] => ""
  | d :: ds => contextBlock d ++ contextBlocks ds

/-! ## Concrete fixtures

Small concrete inputs used by counterexamples and witnesses. -/

/-- Example chunk metadata. -/
def exMeta : ChunkMetadata :=
  { source := "report.pdf", page := 1, has_tables := false, has_images := false }

/-- Example stored record (as saved in the chunks file). -/
def exChunk : Chunk := { page_content := "saved record", metadata := exMeta }

/-- A second example stored record. -/
def exChunk2 : Chunk :=
  { page_content := "second record",
    metadata := { source := "report.pdf", page := 2, has_tables := false, has_images := false } }

/-- Example retrieved document whose content carries a tables section header. -/
def exRDoc : RDoc :=
  { page_content := "### TABLES ON PAGE 1\ncells",
    metadata := { source := some "report.pdf", page := some 1 } }

/-- A language model stub that always answers. -/
def okLlm : String → String → Except String String := fun _ _ => Except.ok "fine"

/-- A language model stub that always raises. -/
def badLlm : String → String → Except String String := fun _ _ => Except.error "backend down"

end RagPipeline

namespace RagPipeline

/-! ## Helper lemmas -/

/-- Indexing an enumerated-then-mapped list: position `i` holds the image of
`(i, l.get i)`. -/
theorem getElem?_enum_map {α β : Type _} (f : Nat × α → β) (l : List α) (i : Nat)
    (hi : i < l.length) :
    (l.enum.map f)[i]? = some (f (i, l.get ⟨i, hi⟩)) := by
  have h1 : l.enum[i]? = some (i, l.get ⟨i, hi⟩) := by
    rw [List.getElem?_enum, List.getElem?_eq_getElem hi]
    rfl
  simp [List.getElem?_map, h1]

/-- Converting records to documents preserves the length. -/
theorem mkDocuments_length (l : List Chunk) : (mkDocuments l).length = l.length := by
  simp [mkDocuments, List.enum_length]

/-- The document at position `i` carries the record at position `i` together
with `chunk_id = i`. -/
theorem getElem?_mkDocuments (l : List Chunk) (i : Nat) (hi : i < l.length) :
    (mkDocuments l)[i]? =
      some { page_content := (l.get ⟨i, hi⟩).page_content,
             meta := (l.get ⟨i, hi⟩).metadata, chunk_id := i } := by
  unfold mkDocuments
  rw [getElem?_enum_map _ l i hi]

/-- The document list of a non-empty record list is non-empty. -/
theorem mkDocuments_isEmpty_false (l : List Chunk) (h : l ≠ []) :
    (mkDocuments l).isEmpty = false := by
  cases hM : mkDocuments l with
  | nil =>
      exfalso
      apply h
      have hlen := mkDocuments_length l
      rw [hM] at hlen
      exact List.eq_nil_of_length_eq_zero hlen.symm
  | cons a t => rfl

/-! ## Claim C1 — citation fidelity -/

/-- Claim C1 counterexample: when the model invocation fails, a non-empty
retrieval (one chunk) yields zero citations, so the citation count does not
equal the number of retrieved chunks. -/
theorem citation_fidelity_counterexample :
    (answer_question badLlm "q" [exRDoc]).citations.length ≠ ([exRDoc] : List RDoc).length := by
  decide

/-- Claim C1 (amended): when the model invocation succeeds, `answer_question`
returns exactly one citation per retrieved chunk, in rank order with rank
fields 1..n, and each citation snippet is identical to the corresponding
chunk's stored page content, with no transformation applied. -/
theorem citation_fidelity_amended (llm : String → String → Except String String)
    (query : String) (docs : List RDoc) (resp : String) (hne : docs ≠ [])
    (hok : llm (formatDocs docs) query = Except.ok resp) :
    (answer_question llm query docs).citations.length = docs.length ∧
      ∀ i, (hi : i < docs.length) →
        (answer_question llm query docs).citations[i]? =
          some { rank := i + 1,
                 source := (docs.get ⟨i, hi⟩).metadata.source.getD "Unknown",
                 page := (docs.get ⟨i, hi⟩).metadata.page,
                 snippet := (docs.get ⟨i, hi⟩).page_content } := by
  have hne' : docs.isEmpty = false := by
    cases docs with
    | nil => exact absurd rfl hne
    | cons a t => rfl
  unfold answer_question answer_question_core
  simp only [hne', Bool.false_eq_true, if_false, hok]
  constructor
  · simp [List.enum_length]
  · intro i hi
    rw [getElem?_enum_map _ docs i hi]

/-- Claim C1 witness: the amended claim at a one-chunk retrieval with a
succeeding model stub. -/
theorem citation_fidelity_amended_witness :
    (answer_question okLlm "q" [exRDoc]).citations.length = ([exRDoc] : List RDoc).length ∧
      ∀ i, (hi : i < ([exRDoc] : List RDoc).length) →
        (answer_question okLlm "q" [exRDoc]).citations[i]? =
          some { rank := i + 1,
                 source := (([exRDoc] : List RDoc).get ⟨i, hi⟩).metadata.source.getD "Unknown",
                 page := (([exRDoc] : List RDoc).get ⟨i, hi⟩).metadata.page,
                 snippet := (([exRDoc] : List RDoc).get ⟨i, hi⟩).page_content } :=
  citation_fidelity_amended okLlm "q" [exRDoc] "fine" (by decide) rfl

/-! ## Claim C2 — empty-context short-circuit -/

/-- Claim C2: with an empty retrieval result, `answer_question` returns the
fixed fallback answer and no citations, and the language-model chain is
invoked zero times — for every model stub and every query. -/
theorem empty_retrieval_short_circuit
    (llm : String → String → Except String String) (query : String) :
    answer_question llm query [] =
        { answer := noContextAnswer, citations := [], context_used := none } ∧
      (answer_question_core llm query []).2 = 0 :=
  ⟨rfl, rfl⟩

/-! ## Claim C3 — table rendering -/

/-- Claim C3: a table with fewer than 2 rows renders to the empty string; a
header row plus one data row renders to the 3-line markdown block of header
row, separator row and data row (framed by one newline on each side; the
separator has one `---` per header cell); stripping the frame leaves exactly
the 3 lines; cell cleanup flattens internal newlines to spaces and maps
`None` cells to empty strings. -/
theorem table_rendering :
    (∀ t : List (List Cell), t.length < 2 → tableToMarkdown t = "") ∧
    (∀ hdr row : List Cell,
      tableToMarkdown [hdr, row] =
        "\n" ++ renderRow (hdr.map cleanCell) ++ "\n" ++ separatorRow hdr.length
          ++ "\n" ++ renderRow (row.map cleanCell) ++ "\n") ∧
    splitLines (pyStrip (tableToMarkdown [[some "A", some "B"], [some "1", some "2"]])) =
      ["| A | B |", "| --- | --- |", "| 1 | 2 |"] ∧
    cleanCell (some "a\nb") = "a b" ∧ cleanCell none = "" := by
  refine ⟨?_, ?_, by decide, by decide, by decide⟩
  · intro t ht
    match t with
    | [] => rfl
    | [_] => rfl
    | _ :: _ :: _ => simp at ht; omega
  · intro hdr row
    simp [tableToMarkdown, List.length_map, pyJoin]

/-- Claim C3 witness: a header-only table (a single row) renders to the empty
string, instantiating the dropped-table case. -/
theorem table_rendering_witness :
    tableToMarkdown [[some "A", some "B"]] = "" :=
  table_rendering.1 [[some "A", some "B"]] (by decide)

/-! ## Claim C4 — the tables flag -/

/-- Claim C4 counterexample: a page whose only table has a single row (so the
table is dropped and the emitted content has no tables section — the list of
surviving table renderings is empty) but which has text still gets
`has_tables = true`, where the claim requires `false`. -/
theorem has_tables_flag_counterexample :
    processPage "r.pdf" 1 { text := "hello", tables := [[[some "A"]]], imageCount := 0 } =
        some { page_content := "### TEXT CONTENT\nhello\n",
               metadata := { source := "r.pdf", page := 1,
                             has_tables := true, has_images := false } } ∧
      tableTexts [[[some "A"]]] = [] := by
  decide

/-- Claim C4 (amended): the emitted record's `has_tables` flag is true if and
only if the page extractor returned at least one raw table, regardless of
whether any table survived the 2-row dropping rule. -/
theorem has_tables_flag_amended (source : String) (pageNum : Nat) (p : PageData)
    (c : Chunk) (h : processPage source pageNum p = some c) :
    c.metadata.has_tables = true ↔ p.tables ≠ [] := by
  simp only [processPage] at h
  split at h
  · cases h
    simp [List.length_pos]
  · cases h

/-- Claim C4 witness: the amended claim at the counterexample page. -/
theorem has_tables_flag_amended_witness :
    ({ source := "r.pdf", page := 1, has_tables := true, has_images := false :
        ChunkMetadata }).has_tables = true ↔
      ([[[some "A"]]] : List (List (List Cell))) ≠ [] :=
  has_tables_flag_amended "r.pdf" 1
    { text := "hello", tables := [[[some "A"]]], imageCount := 0 }
    { page_content := "### TEXT CONTENT\nhello\n",
      metadata := { source := "r.pdf", page := 1, has_tables := true, has_images := false } }
    (by decide)


/-! ## Claim C5 — empty corpus handling -/

/-- Claim C5 counterexample: calling the index build with an explicitly empty
record sequence while the chunks file holds one record does **not** fail or
no-op: it builds and persists an index over the file contents. -/
theorem empty_corpus_counterexample :
    create_vector_store (some []) (some [exChunk]) =
        Except.ok (BuildOutcome.built
          [{ page_content := "saved record", meta := exMeta, chunk_id := 0 }]) ∧
      create_vector_store (some []) (some [exChunk]) ≠ Except.ok BuildOutcome.noop := by
  refine ⟨by decide, by decide⟩

/-- Claim C5 (amended): an empty record sequence is falsy and triggers the
load-from-file fallback (it behaves exactly like passing nothing); the build
is a logged no-op — nothing computed or persisted — precisely when the
effective record sequence (here: the file contents) is empty; when the file
is also absent the build raises a file-not-found error.  No dedicated
empty-corpus exception exists. -/
theorem empty_corpus_amended :
    (∀ f : Option (List Chunk), create_vector_store (some []) f = create_vector_store none f) ∧
      create_vector_store (some []) (some []) = Except.ok BuildOutcome.noop ∧
      create_vector_store none (some []) = Except.ok BuildOutcome.noop ∧
      create_vector_store (some []) none = Except.error "FileNotFoundError: No chunks found" :=
  ⟨fun _ => rfl, rfl, rfl, rfl⟩

/-! ## Claim C6 — missing PDF side effects -/

/-- Claim C6 counterexample: with the source PDF absent and a non-empty prior
images directory, the ingestion run raises the missing-file error, yet the
images directory has already been cleared (reset to empty) by the processor
constructor — pre-existing on-disk state destroyed before the failure. -/
theorem ingest_side_effect_counterexample :
    (ingestRun { pdfName := "qatar_test_doc.pdf", pdfPages := none,
                 chunksFile := some [], imagesDir := some ["page_1_img_1.png"] }).2 =
        Except.error "FileNotFoundError: PDF not found" ∧
      (ingestRun { pdfName := "qatar_test_doc.pdf", pdfPages := none,
                   chunksFile := some [], imagesDir := some ["page_1_img_1.png"] }).1.imagesDir =
        some [] ∧
      (some ([] : List String)) ≠ some ["page_1_img_1.png"] := by
  refine ⟨rfl, rfl, by decide⟩

/-- Claim C6 (amended): when the source PDF is absent, the ingestion run
fails with the missing-file error and writes no chunk file, but the images
directory has already been cleared and recreated empty by the processor
constructor before the failure is raised. -/
theorem ingest_missing_pdf_amended (s : FsState) (h : s.pdfPages = none) :
    (ingestRun s).2 = Except.error "FileNotFoundError: PDF not found" ∧
      (ingestRun s).1.chunksFile = s.chunksFile ∧
      (ingestRun s).1.imagesDir = some [] := by
  unfold ingestRun processPdfRun processorInit
  simp [h]

/-- Claim C6 witness: the amended claim at a concrete state with the PDF
absent. -/
theorem ingest_missing_pdf_amended_witness :
    (ingestRun { pdfName := "doc.pdf", pdfPages := none,
                 chunksFile := none, imagesDir := none }).2 =
        Except.error "FileNotFoundError: PDF not found" ∧
      (ingestRun { pdfName := "doc.pdf", pdfPages := none,
                   chunksFile := none, imagesDir := none }).1.chunksFile = none ∧
      (ingestRun { pdfName := "doc.pdf", pdfPages := none,
                   chunksFile := none, imagesDir := none }).1.imagesDir = some [] :=
  ingest_missing_pdf_amended _ rfl

/-! ## Claim C7 — result completeness -/

/-- Claim C7 counterexample: on the empty-retrieval path (and likewise on the
model-failure path) the returned record has no `context_used` value, where
the claim requires the integer 0 (respectively the chunk count). -/
theorem qaresult_completeness_counterexample :
    (answer_question okLlm "q" []).context_used = none ∧
      (answer_question badLlm "q" [exRDoc]).context_used = none ∧
      (none : Option Nat) ≠ some 0 := by
  refine ⟨rfl, rfl, by decide⟩

/-- Claim C7 (amended): `answer` and `citations` are present on every return
path; `context_used` is present only on the success path, where it equals
the number of retrieved chunks; both the empty-retrieval fallback and the
model-failure fallback return dictionaries without `context_used`. -/
theorem qaresult_completeness_amended :
    (∀ (llm : String → String → Except String String) (q : String),
      answer_question llm q [] =
        { answer := noContextAnswer, citations := [], context_used := none }) ∧
      (∀ (llm : String → String → Except String String) (q : String)
          (docs : List RDoc) (e : String), docs ≠ [] →
        llm (formatDocs docs) q = Except.error e →
        answer_question llm q docs =
          { answer := llmErrorAnswer, citations := [], context_used := none }) ∧
      (∀ (llm : String → String → Except String String) (q : String)
          (docs : List RDoc) (r : String), docs ≠ [] →
        llm (formatDocs docs) q = Except.ok r →
        (answer_question llm q docs).context_used = some docs.length ∧
          (answer_question llm q docs).answer = r) := by
  refine ⟨fun llm q => rfl, ?_, ?_⟩
  · intro llm q docs e hne herr
    have hne' : docs.isEmpty = false := by
      cases docs with
      | nil => exact absurd rfl hne
      | cons a t => rfl
    unfold answer_question answer_question_core
    simp only [hne', Bool.false_eq_true, if_false, herr]
  · intro llm q docs r hne hok
    have hne' : docs.isEmpty = false := by
      cases docs with
      | nil => exact absurd rfl hne
      | cons a t => rfl
    unfold answer_question answer_question_core
    simp only [hne', Bool.false_eq_true, if_false, hok]
    simp

/-- Claim C7 witness: the success-path part of the amended claim at a
one-chunk retrieval with a succeeding model stub. -/
theorem qaresult_completeness_amended_witness :
    (answer_question okLlm "q" [exRDoc]).context_used = some ([exRDoc] : List RDoc).length ∧
      (answer_question okLlm "q" [exRDoc]).answer = "fine" :=
  qaresult_completeness_amended.2.2 okLlm "q" [exRDoc] "fine" (by decide) rfl

/-! ## Claim C8 — chunk-id assignment -/

/-- Claim C8 counterexample: for the empty input sequence (n = 0) the build
is not a no-op over zero records — it indexes the two records of the chunks
file and assigns the chunk-id values 0 and 1, not the empty set. -/
theorem chunk_id_counterexample :
    create_vector_store (some []) (some [exChunk, exChunk2]) =
        Except.ok (BuildOutcome.built (mkDocuments [exChunk, exChunk2])) ∧
      (mkDocuments [exChunk, exChunk2]).map (fun d => d.chunk_id) = [0, 1] := by
  refine ⟨by decide, by decide⟩

/-- Claim C8 (amended): for every **non-empty** sequence of n input records,
building the index succeeds over exactly those records and assigns chunk-id
values 0..n-1 in input order: the document at position i carries the i-th
record's content and metadata together with `chunk_id = i`. -/
theorem chunk_id_amended (l : List Chunk) (f : Option (List Chunk)) (h : l ≠ []) :
    create_vector_store (some l) f = Except.ok (BuildOutcome.built (mkDocuments l)) ∧
      (mkDocuments l).length = l.length ∧
      ∀ i, (hi : i < l.length) →
        (mkDocuments l)[i]? =
          some { page_content := (l.get ⟨i, hi⟩).page_content,
                 meta := (l.get ⟨i, hi⟩).metadata, chunk_id := i } := by
  refine ⟨?_, mkDocuments_length l, fun i hi => getElem?_mkDocuments l i hi⟩
  have hE : l.isEmpty = false := by
    cases l with
    | nil => exact absurd rfl h
    | cons a t => rfl
  have hE2 := mkDocuments_isEmpty_false l h
  simp [create_vector_store, hE, hE2]

/-- Claim C8 witness: the amended claim at a one-record input. -/
theorem chunk_id_amended_witness :
    create_vector_store (some [exChunk]) none =
        Except.ok (BuildOutcome.built (mkDocuments [exChunk])) ∧
      (mkDocuments [exChunk]).length = ([exChunk] : List Chunk).length ∧
      ∀ i, (hi : i < ([exChunk] : List Chunk).length) →
        (mkDocuments [exChunk])[i]? =
          some { page_content := (([exChunk] : List Chunk).get ⟨i, hi⟩).page_content,
                 meta := (([exChunk] : List Chunk).get ⟨i, hi⟩).metadata, chunk_id := i } :=
  chunk_id_amended [exChunk] none (by decide)

/-! ## Claim C9 — context assembly -/

/-- Claim C9 counterexample: for a retrieved chunk whose content carries a
tables section header, the context handed to the model is **not** the header
line followed by the raw chunk content (under either reading of the block
terminator): the generator rewrites the content first. -/
theorem context_assembly_counterexample :
    formatDocs [exRDoc] =
        "--- INFO FROM PAGE 1 (report.pdf) ---\nTable Data: ON PAGE 1\ncells\n\n" ∧
      formatDocs [exRDoc] ≠
        "--- INFO FROM PAGE 1 (report.pdf) ---\n### TABLES ON PAGE 1\ncells\n\n" ∧
      formatDocs [exRDoc] ≠
        "--- INFO FROM PAGE 1 (report.pdf) ---\n### TABLES ON PAGE 1\ncells" := by
  refine ⟨by decide, by decide, by decide⟩

/-- Claim C9 (amended): the context string is the concatenation, in
retrieval-rank order, of one block per chunk consisting of the
page/source header line, a newline, the chunk content **after** the
generator cleanup (text-content header removed, tables header rewritten),
and a terminating blank line. -/
theorem context_assembly_amended (docs : List RDoc) :
    formatDocs docs = contextBlocks docs := by
  have h : ∀ (l : List RDoc) (acc : String),
      l.foldl (fun acc doc =>
        acc ++ "--- INFO FROM PAGE " ++ pageLabel doc.metadata ++ " ("
          ++ doc.metadata.source.getD "Report" ++ ") ---\n"
          ++ cleanDocContent doc.page_content ++ "\n\n") acc = acc ++ contextBlocks l := by
    intro l
    induction l with
    | nil => intro acc; simp [contextBlocks, String.append_empty]
    | cons d ds ih =>
        intro acc
        simp only [List.foldl_cons, ih, contextBlocks]
        simp [contextBlock, String.append_assoc]
  have h2 := h docs ""
  simpa [formatDocs, String.empty_append] using h2

/-! ## Claim C10 — falsy argument fallback -/

/-- Claim C10: an explicitly empty record list is falsy and behaves exactly
like an omitted argument: the build falls back to the persisted chunks file,
indexes its records when there are any, raises the file-not-found error when
the file is absent, and never raises it when the file exists. -/
theorem falsy_chunks_fallback :
    (∀ f : Option (List Chunk), create_vector_store (some []) f = create_vector_store none f) ∧
      create_vector_store (some []) none = Except.error "FileNotFoundError: No chunks found" ∧
      (∀ l : List Chunk, l ≠ [] →
        create_vector_store (some []) (some l) =
          Except.ok (BuildOutcome.built (mkDocuments l))) ∧
      (∀ (l : List Chunk) (e : String),
        create_vector_store (some []) (some l) ≠ Except.error e) := by
  refine ⟨fun _ => rfl, rfl, ?_, ?_⟩
  · intro l h
    have hE2 := mkDocuments_isEmpty_false l h
    simp [create_vector_store, hE2]
  · intro l e
    cases l with
    | nil =>
        intro hc
        rw [show create_vector_store (some []) (some ([] : List Chunk)) =
              Except.ok BuildOutcome.noop from rfl] at hc
        exact Except.noConfusion hc
    | cons a t =>
        have hE2 := mkDocuments_isEmpty_false (a :: t) (by simp)
        simp [create_vector_store, hE2]

/-- Claim C10 witness: the fallback indexes the one record saved in the
chunks file when the provided list is empty. -/
theorem falsy_chunks_fallback_witness :
    create_vector_store (some []) (some [exChunk]) =
        Except.ok (BuildOutcome.built (mkDocuments [exChunk])) :=
  falsy_chunks_fallback.2.2.1 [exChunk] (by decide)

end RagPipeline
